import Mathlib

/-!
Verification development for the AutoML backend (FastAPI + agents).

The definitions below are a shallow embedding, translated from the Python
sources:

* `backend/app/agents/ai_insights_agent.py`  — insight generation, caching,
  model fallback and response cleaning;
* `backend/app/agents/evaluation_agent.py`   — model evaluation and column
  alignment;
* `backend/app/agents/orchestrator_agent.py` — the orchestrator decision loop;
* `backend/app/api/feature_engineering_routes.py`,
  `backend/app/api/evaluation_routes.py`,
  `backend/app/api/model_training_routes.py` — dataset-id resolution.

External library calls (the Ollama chat backend, scikit-learn metric
functions, the embedding model, the filesystem, the md5 hash) are modelled as
oracle parameters packaged in small environment structures; everything the
repository's own code computes is translated directly.  Numeric values that
the Python code handles as floats only ever flow through exact comparisons in
the code under scrutiny, so they are modelled as rationals.
-/

namespace AutoML

/-! ### Python string primitives

`str.strip()` and the regex class `\s` are modelled over the ASCII whitespace
characters Python recognises: space, tab, newline, carriage return, vertical
tab and form feed. -/

def isPySpace (c : Char) : Bool :=
  c = ' ' || c = '\t' || c = '\n' || c = '\r' || c = Char.ofNat 11 || c = Char.ofNat 12

/-- Python `str.strip()`: drop leading and trailing whitespace. -/
def pyStrip (s : String) : String :=
  ⟨((s.data.dropWhile isPySpace).reverse.dropWhile isPySpace).reverse⟩

/-- Python `pat in s` substring test (used for the memory-insufficiency
signal check `"requires more system memory" in str(e)`). -/
def strContains (s pat : String) : Bool :=
  (s.data.tails).any (fun t => pat.data.isPrefixOf t)

/-- Python `str.lower()` (character-wise lowering). -/
def pyLower (s : String) : String :=
  ⟨s.data.map Char.toLower⟩

/-! ### `clean_response` (ai_insights_agent.py, lines 39–47)

The three `re.sub` passes are implemented character-by-character.  The
recursions that skip past a removed match are written with an explicit fuel
argument initialised to the input length; each step consumes at least one
character, so the fuel never runs out and the `0` case is unreachable. -/

/-- Character class `[A-Z_]` of the control-token pattern. -/
def isTokChar (c : Char) : Bool :=
  ('A' ≤ c && c ≤ 'Z') || c = '_'

/-- Try to match the tail of the pattern `\[/?[A-Z_]+\]` right after an
opening `[`: an optional `/`, one or more `[A-Z_]` characters, then `]`.
Returns the remainder after the match. -/
def matchToken (cs : List Char) : Option (List Char) :=
  let cs' := match cs with
    | '/' :: r => r
    | _ => cs
  match cs'.dropWhile isTokChar, cs'.takeWhile isTokChar with
  | ']' :: r, _ :: _ => some r
  | _, _ => none

/-- Leftmost, non-overlapping removal of `\[/?[A-Z_]+\]` matches
(`re.sub(r'\[/?[A-Z_]+\]', '', ...)`). -/
def stripTokensAux : Nat → List Char → List Char
  | 0, cs => cs
  | fuel + 1, cs =>
    match cs with
    | [] => []
    | c :: rest =>
      if c = '[' then
        match matchToken rest with
        | some rest' => stripTokensAux fuel rest'
        | none => c :: stripTokensAux fuel rest
      else c :: stripTokensAux fuel rest

def stripControlTokens (cs : List Char) : List Char :=
  stripTokensAux cs.length cs

/-- Embeds `re.sub(r'</s>', '', ...)`: remove every occurrence of the end-of-sequence
marker. -/
def removeEos : List Char → List Char
  | '<' :: '/' :: 's' :: '>' :: rest => removeEos rest
  | c :: rest => c :: removeEos rest
  | [] => []

/-- Embeds `re.sub(r'\s+', ' ', ...)`: collapse each maximal whitespace run to a
single space. -/
def collapseWsAux : Nat → List Char → List Char
  | 0, cs => cs
  | fuel + 1, cs =>
    match cs with
    | [] => []
    | c :: rest =>
      if isPySpace c then ' ' :: collapseWsAux fuel (rest.dropWhile isPySpace)
      else c :: collapseWsAux fuel rest

def collapseWs (cs : List Char) : List Char :=
  collapseWsAux cs.length cs

/-- Embeds `clean_response`: strip bracketed uppercase control tokens, remove
end-of-sequence markers, collapse whitespace runs, trim. -/
def clean_response (raw : String) : String :=
  pyStrip ⟨collapseWs (removeEos (stripControlTokens raw.data))⟩

/-! ### Insight generator (`generate_ai_insights`, ai_insights_agent.py) -/

def AVAILABLE_MODELS : List String := ["mistral", "gemma2", "llama3.3", "llama2", "gpt-4"]

/-- The polymorphic shapes an `ollama.chat` response can take, as the code
distinguishes them: a dict with a `response` field, a dict with
`message.content`, a dict with neither, a raw string, an object with a
`message.content` attribute, or anything else. -/
inductive ChatResponse where
  | dictResponse (text : String)
  | dictMessageContent (content : String)
  | dictOther
  | rawString (s : String)
  | objMessage (content : String)
  | otherObj
deriving DecidableEq

/-- Exceptions `generate_ai_insights` can raise: `ValueError`s raised by the
function itself, and exceptions propagated from `ollama.chat` (carrying the
exception's string form, which the code inspects via substring test). -/
inductive GenError where
  | valueError (msg : String)
  | chatError (e : String)
deriving DecidableEq

/-- The external capabilities the function uses: the md5 hash over the cache
key string, the `ollama list` availability check, and the `ollama.chat` call
(model, prompt → response or exception message). -/
structure GenEnv where
  hash : String → String
  available : String → Bool
  chat : String → String → Except String ChatResponse

/-- The insight cache: cache filename → stored insights string (the
`insights` field of the cached JSON object). -/
abbrev Cache := List (String × String)

def lookupCache : Cache → String → Option String
  | [], _ => none
  | p :: ps, k => if p.1 = k then some p.2 else lookupCache ps k

def removeCache : Cache → String → Cache
  | [], _ => []
  | p :: ps, k => if p.1 = k then removeCache ps k else p :: removeCache ps k

def setCache (c : Cache) (k v : String) : Cache :=
  (k, v) :: removeCache c k

/-- Result state of a `generate_ai_insights` run: the cache after the call and
the log of `ollama.chat` invocations made, in order (model, prompt). -/
structure GenState where
  cache : Cache
  calls : List (String × String)
deriving DecidableEq

/-- Embeds `get_cache_filename`: `ai_cache/{md5(model_choice:prompt)}.json`. -/
def get_cache_filename (env : GenEnv) (prompt model_choice : String) : String :=
  "ai_cache/" ++ env.hash (model_choice ++ ":" ++ prompt) ++ ".json"

/-- Prompt construction (ai_insights_agent.py lines 74–93): combined summary,
hard truncation at `chunk_threshold`, optional chain-of-thought instruction,
fixed instructional template. -/
def buildPrompt (eda_summary model_summary : String) (chunk_threshold : Nat)
    (enable_cot : Bool) : String :=
  let combined :=
    "EDA Summary:\n" ++ eda_summary ++ "\n\nModel Training Summary:\n" ++ model_summary ++ "\n\n"
  let combined :=
    if combined.length > chunk_threshold then
      ⟨combined.data.take chunk_threshold⟩ ++ "\n\n[TRUNCATED FOR LENGTH]\n"
    else combined
  let cot :=
    if enable_cot then
      "Also, please include your chain-of-thought in a section labeled 'Chain-of-Thought'. "
    else ""
  "You are an AI assistant with context from an Exploratory Data Analysis (EDA) and a Model Training Summary. "
    ++ "Use the information provided below to create structured, actionable insights in bullet points.\n\n"
    ++ combined
    ++ "Outline:\n1) General Insights\n2) Model Performance\n3) Recommendations\n"
    ++ cot
    ++ "Think step by step."

/-- Response-shape normalization (ai_insights_agent.py lines 147–159).  Note
that `clean_response` is applied only in the raw-string branch. -/
def extract_insights : ChatResponse → Except GenError String
  | .dictResponse t => .ok t
  | .dictMessageContent c => .ok c
  | .dictOther => .error (.valueError "Unexpected response format")
  | .rawString s => .ok (clean_response s)
  | .objMessage c => .ok c
  | .otherObj => .error (.valueError "Unexpected response type")

/-- Tail of `generate_ai_insights` after a chat call returned (lines 147–172):
normalize the response shape, strip, cache when non-empty, return. -/
def finishGen (cache : Cache) (calls : List (String × String)) (cache_file : String)
    (response : ChatResponse) : GenState × Except GenError String :=
  match extract_insights response with
  | .error err => (⟨cache, calls⟩, .error err)
  | .ok raw =>
    let insights := pyStrip raw
    if insights = "" then (⟨cache, calls⟩, .ok insights)
    else (⟨setCache cache cache_file insights, calls⟩, .ok insights)

/-- The generation call with its fallback policy (lines 117–145): on a
memory-insufficiency signal, retry once against `mistral` and re-raise the
fallback's exception on secondary failure; otherwise, if the requested model
is `gpt-4`, the same retry; any other failure propagates immediately. -/
def genWithFallback (env : GenEnv) (cache : Cache) (cache_file model_choice prompt : String) :
    GenState × Except GenError String :=
  match env.chat model_choice prompt with
  | .ok response => finishGen cache [(model_choice, prompt)] cache_file response
  | .error e =>
    if strContains e "requires more system memory" then
      match env.chat "mistral" prompt with
      | .ok response =>
        finishGen cache [(model_choice, prompt), ("mistral", prompt)] cache_file response
      | .error fallback_e =>
        (⟨cache, [(model_choice, prompt), ("mistral", prompt)]⟩, .error (.chatError fallback_e))
    else if pyLower model_choice = "gpt-4" then
      match env.chat "mistral" prompt with
      | .ok response =>
        finishGen cache [(model_choice, prompt), ("mistral", prompt)] cache_file response
      | .error fallback_e =>
        (⟨cache, [(model_choice, prompt), ("mistral", prompt)]⟩, .error (.chatError fallback_e))
    else (⟨cache, [(model_choice, prompt)]⟩, .error (.chatError e))

/-- Embeds `generate_ai_insights` (ai_insights_agent.py lines 49–176).  The unused
`max_tokens` parameter of the Python signature is kept for fidelity.
Returns the final cache and chat-call log together with the returned
insights or raised exception. -/
def generate_ai_insights (env : GenEnv) (cache₀ : Cache)
    (eda_summary model_summary model_choice : String) (chunk_threshold : Nat)
    (force_regenerate enable_cot : Bool) (max_tokens : Nat) (clear_cache : Bool) :
    GenState × Except GenError String :=
  if AVAILABLE_MODELS.contains model_choice then
    if env.available model_choice then
      let prompt := buildPrompt eda_summary model_summary chunk_threshold enable_cot
      let cache_file := get_cache_filename env prompt model_choice
      let cache1 :=
        if (force_regenerate || clear_cache) && (lookupCache cache₀ cache_file).isSome then
          removeCache cache₀ cache_file
        else cache₀
      let hit : Option String :=
        if force_regenerate then none
        else
          match lookupCache cache1 cache_file with
          | some v => if pyStrip v = "" then none else some (pyStrip v)
          | none => none
      match hit with
      | some ins => (⟨cache1, []⟩, .ok ins)
      | none => genWithFallback env cache1 cache_file model_choice prompt
    else
      (⟨cache₀, []⟩,
        .error (.valueError ("Selected model '" ++ model_choice ++ "' is not available in Ollama.")))
  else
    (⟨cache₀, []⟩,
      .error (.valueError ("Invalid model '" ++ model_choice ++ "'. Choose from the available models.")))

/-! ### Evaluation agent (`evaluate_model`, evaluation_agent.py)

A pandas DataFrame is modelled as an ordered list of named columns of
rational values.  The pandas heap is modelled as a list of frames, a frame
reference being an index into that list: `new_df.copy()` allocates a fresh
frame, the `inplace=True` drops mutate only that fresh frame, and
`df = df[cols]` allocates another frame, so the net heap effect of a call is
to append the frames it allocated — the pre-existing entries, the caller's
frame among them, are untouched. -/

abbrev Frame := List (String × List ℚ)

abbrev Store := List Frame

namespace Frame

def cols (f : Frame) : List String := f.map Prod.fst

def dropCols (f : Frame) (cs : List String) : Frame :=
  f.filter (fun p => !(cs.contains p.1))

def getCol (f : Frame) (c : String) : List ℚ :=
  match f.find? (fun p => p.1 == c) with
  | some p => p.2
  | none => []

/-- Embeds `df[cs]`: select the named columns in the given order (all assumed
present when used). -/
def select (f : Frame) (cs : List String) : Frame :=
  cs.filterMap (fun c => f.find? (fun p => p.1 == c))

end Frame

inductive ModelKind where
  | classifier
  | regressor
  | other
deriving DecidableEq

/-- A loaded model artifact: the optional `_training_columns` metadata
(`hasattr` check), the classifier/regressor discrimination used for metric
selection, and the opaque `predict` capability. -/
structure SavedModel where
  training_columns : Option (List String)
  kind : ModelKind
  predict : Frame → List ℚ

/-- The scikit-learn metric functions consumed by `evaluate_model`,
as oracles (actual values, predictions → score). -/
structure SkEnv where
  accuracy_score : List ℚ → List ℚ → ℚ
  f1_score : List ℚ → List ℚ → ℚ
  rmse : List ℚ → List ℚ → ℚ
  r2_score : List ℚ → List ℚ → ℚ

/-- The `column_info` dictionary of an evaluation result; `none` models an
absent key. -/
structure ColInfo where
  missing_target : Option String := none
  extra_columns_dropped : Option (List String) := none
  used_columns : Option (List String) := none
deriving DecidableEq

structure EvalResult where
  predictions : List ℚ
  column_info : ColInfo
  metrics : Option (List (String × ℚ))
  actual : Option (List ℚ)

inductive EvalError where
  | columnMismatch (missing : List String)
deriving DecidableEq

/-- Target-column handling (evaluation_agent.py lines 33–41): Python's
`if target_col:` treats both `None` and the empty string as falsy.  Returns
the working frame, the captured `y_true`, and the `missing_target`
annotation. -/
def targetStep (df : Frame) (target_col : Option String) :
    Frame × Option (List ℚ) × Option String :=
  match target_col with
  | none => (df, none, none)
  | some t =>
    if t = "" then (df, none, none)
    else if df.cols.contains t then (df.dropCols [t], some (df.getCol t), none)
    else (df, none, some t)

/-- Metric computation and result assembly (lines 66–89). -/
def mkEvalResult (env : SkEnv) (model : SavedModel) (preds : List ℚ) (ci : ColInfo)
    (y_true : Option (List ℚ)) : EvalResult :=
  match y_true with
  | none => ⟨preds, ci, none, none⟩
  | some ys =>
    let metrics :=
      match model.kind with
      | .classifier => [("Accuracy", env.accuracy_score ys preds), ("F1", env.f1_score ys preds)]
      | .regressor => [("RMSE", env.rmse ys preds), ("R2", env.r2_score ys preds)]
      | .other => []
    ⟨preds, ci, some metrics, some ys⟩

/-- The value-level body of `evaluate_model`, acting on the copied frame
(lines 32–89).  Returns the list of frames allocated during the call (the
copy after its in-place mutations, then the reindexed frame when column
alignment runs) together with the outcome. -/
def evalModelCore (env : SkEnv) (model : SavedModel) (df₀ : Frame)
    (target_col : Option String) : List Frame × Except EvalError EvalResult :=
  let step := targetStep df₀ target_col
  let df₁ := step.1
  let y_true := step.2.1
  let ci₀ : ColInfo := { missing_target := step.2.2 }
  match model.training_columns with
  | some tcols =>
    let extra := df₁.cols.filter (fun c => !(tcols.contains c))
    let missing := tcols.filter (fun c => !(df₁.cols.contains c))
    let ci₁ := if extra = [] then ci₀ else { ci₀ with extra_columns_dropped := some extra }
    let df₂ := if extra = [] then df₁ else df₁.dropCols extra
    if missing = [] then
      let df₃ := df₂.select tcols
      let ci₂ := { ci₁ with used_columns := some tcols }
      ([df₂, df₃], .ok (mkEvalResult env model (model.predict df₃) ci₂ y_true))
    else ([df₂], .error (.columnMismatch missing))
  | none => ([df₁], .ok (mkEvalResult env model (model.predict df₁) ci₀ y_true))

/-- Embeds `evaluate_model` on the frame heap: `df = new_df.copy()` works on a fresh
frame, so the call only appends its allocations to the store. -/
def evaluate_model (env : SkEnv) (store : Store) (ref : Nat) (model : SavedModel)
    (target_col : Option String) : Store × Except EvalError EvalResult :=
  let core := evalModelCore env model (store.getD ref []) target_col
  (store ++ core.1, core.2)

/-! ### Orchestrator (`OrchestratorAgent.decide_next_steps`,
orchestrator_agent.py lines 68–135) -/

/-- One row of `train_output["results"]`: a string-keyed record of metric
values (`row.get("R2", 0)` is an assoc lookup with default `0`). -/
abbrev TrainRow := List (String × ℚ)

def rowGetR2 (row : TrainRow) : ℚ :=
  match row.find? (fun p => p.1 == "R2") with
  | some p => p.2
  | none => 0

/-- Embeds `best_r2 = max((row.get("R2", 0) for row in results), default=0.0)`:
Python's `max` with a default folds `max` over the generated values, the
default only applying to an empty sequence. -/
def best_r2 (results : List TrainRow) : ℚ :=
  match results.map rowGetR2 with
  | [] => 0
  | x :: xs => xs.foldl max x

/-- The decision dictionary returned by `decide_next_steps`; `none` models an
absent key. -/
structure Decision where
  eda_report : Option String := none
  model_results : Option (List TrainRow) := none
  next_action : Option String := none
  reason : Option String := none
  ai_insights : Option String := none
  error : Option String := none
  details : Option String := none

/-- The pipeline-stage collaborators the orchestrator invokes, as oracles:
`generate_eda` (its report component), `train_and_evaluate_models` (its
`results` component), `retrieve_context`, and `generate_ai_insights` (the
insight call made with the fixed arguments `model_choice="gpt-4"`,
`force_regenerate=True`, `enable_cot=True`).  Errors carry the exception's
string form. -/
structure OrchEnv where
  generate_eda : Frame → Except String String
  train : Frame → String → Except String (List TrainRow)
  retrieve_context : String → Nat → String
  gen_insights : String → String → Except String String

/-- Fixed in `OrchestratorAgent.__init__`. -/
def eda_quality_threshold : ℚ := 0.8

/-- Fixed in `OrchestratorAgent.__init__`. -/
def model_performance_threshold : ℚ := 0.75

/-- The hardcoded placeholder data-quality score (line 88). -/
def data_quality : ℚ := 0.85

/-- Embeds `decide_next_steps`: returns the decision record together with the list
of collaborator stages invoked, in order.  The `reason` strings are kept
verbatim where they are constant; embedded float formatting is abstracted
into the surrounding text. -/
def decide_next_steps (env : OrchEnv) (data : Frame) (target_col : String) :
    Decision × List String :=
  match env.generate_eda data with
  | .error e => ({ error := some "EDA failed", details := some e }, ["eda"])
  | .ok report =>
    if data_quality < eda_quality_threshold then
      ({ eda_report := some report,
         next_action := some "Perform advanced feature engineering.",
         reason := some "Data quality score below threshold." }, ["eda"])
    else
      match env.train data target_col with
      | .error e =>
        ({ error := some "Model training failed", details := some e }, ["eda", "train"])
      | .ok results =>
        if best_r2 results < model_performance_threshold then
          let domain_context := env.retrieve_context "Ways to improve regression R2 score" 2
          let eda_summary := report ++ "\n\nAdditional Domain Context:\n" ++ domain_context
          let model_summary :=
            "Model training results indicate low R2. Consider adjusting hyperparameters and exploring alternative algorithms."
          let insights :=
            match env.gen_insights eda_summary model_summary with
            | .ok ins => ins
            | .error _ => "No AI insights available due to an error."
          ({ eda_report := some report, model_results := some results,
             next_action := some "Tune hyperparameters or try alternative models.",
             reason := some "Best R2 below threshold.",
             ai_insights := some insights }, ["eda", "train", "retrieve", "insights"])
        else
          ({ eda_report := some report, model_results := some results,
             next_action := some "Proceed to forecasting or deployment.",
             reason := some "Data quality and model performance are satisfactory." },
           ["eda", "train"])

/-! ### Dataset-id resolution in the API routes

The filesystem is an oracle `fs : path → Bool` (`os.path.exists`). -/

/-- feature_engineering_routes.py lines 40–49: look in the requested folder;
if absent, try the alternate folder (`original_data` when the request was
`processed_data`, `processed_data` otherwise); error when absent in both. -/
def feResolvePath (fs : String → Bool) (dataset_id folder : String) : Except String String :=
  let csv_path := folder ++ "/" ++ dataset_id ++ ".csv"
  if fs csv_path then .ok csv_path
  else
    let alt_folder := if folder = "processed_data" then "original_data" else "processed_data"
    let alt_path := alt_folder ++ "/" ++ dataset_id ++ ".csv"
    if fs alt_path then .ok alt_path
    else .error ("No file found for dataset_id=" ++ dataset_id ++ " in " ++ folder ++ " or " ++ alt_folder ++ ".")

/-- evaluation_routes.py lines 38–41: only `processed_data` is consulted; no
fallback. -/
def evalResolvePath (fs : String → Bool) (dataset_id : String) : Except String String :=
  let data_path := "processed_data/" ++ dataset_id ++ ".csv"
  if fs data_path then .ok data_path
  else .error ("No processed file for dataset_id='" ++ dataset_id ++ "'.")

/-- model_training_routes.py lines 40–68, dataset-id branches (no uploaded
file): each `dataset_source` consults exactly one folder; no fallback. -/
def trainResolvePath (fs : String → Bool) (dataset_source : String)
    (dataset_id feature_engineered_id : Option String) : Except String String :=
  if dataset_source = "original" then
    match dataset_id with
    | some id =>
      let p := "original_data/" ++ id ++ ".csv"
      if fs p then .ok p
      else .error ("No original file found for dataset_id='" ++ id ++ "'.")
    | none => .error "No file or dataset_id provided for original dataset."
  else if dataset_source = "preprocessed" then
    match dataset_id with
    | some id =>
      let p := "processed_data/" ++ id ++ ".csv"
      if fs p then .ok p
      else .error ("No processed file found for dataset_id='" ++ id ++ "'.")
    | none => .error "No dataset_id provided for preprocessed dataset."
  else if dataset_source = "feature_engineered" then
    match feature_engineered_id with
    | some fid =>
      let p := "feature_engineered_data/" ++ fid ++ ".csv"
      if fs p then .ok p
      else .error ("No feature-engineered file for id='" ++ fid ++ "'.")
    | none => .error "No feature_engineered_id provided."
  else .error ("Unknown dataset_source='" ++ dataset_source ++ "'.")

/-! ### Concrete fixtures used by witnesses and counterexamples -/

/-- A filesystem holding only the original-stage snapshot of dataset `d`. -/
def fsOnlyOriginal : String → Bool := fun p => p == "original_data/d.csv"

/-- An orchestrator environment whose EDA stage always raises. -/
def edaFailEnv : OrchEnv :=
  ⟨fun _ => .error "boom", fun _ _ => .ok [], fun _ _ => "", fun _ _ => .ok "i"⟩

/-- Frames and a model for the C5 witness: training columns `{a,b}`. -/
def modelAB : SavedModel := ⟨some ["a", "b"], .regressor, fun f => f.getCol "a"⟩

def skStub : SkEnv := ⟨fun _ _ => 0, fun _ _ => 0, fun _ _ => 0, fun _ _ => 0⟩

def frameABC : Frame := [("a", [1]), ("b", [2]), ("c", [3])]

def frameA : Frame := [("a", [1])]

/-- An orchestrator environment whose stages all succeed, training reporting
a single model with the given R2. -/
def trainEnv (r2 : ℚ) : OrchEnv :=
  ⟨fun _ => .ok "report", fun _ _ => .ok [[("R2", r2)]], fun _ _ => "ctx", fun _ _ => .ok "ins"⟩

/-- A backend on which `gpt-4` and `mistral` both fail, with distinct
exception messages. -/
def envGptFails : GenEnv :=
  ⟨id, fun _ => true,
    fun m _ => if m = "gpt-4" then .error "gpt-4 failure" else .error "mistral failure"⟩

/-- A backend whose `gpt-4` fails and whose `mistral` fallback returns a
nested message-content response. -/
def envFallbackOk : GenEnv :=
  ⟨fun s => "H" ++ s, fun _ => true,
    fun m _ => if m = "gpt-4" then .error "gpt-4 failure"
      else .ok (.dictMessageContent " insight text ")⟩

/-- A backend returning a dict-shaped response whose text carries bracketed
control tokens. -/
def envDictTokens : GenEnv :=
  ⟨id, fun _ => true, fun _ _ => .ok (.dictResponse "[INST] hi [/INST]")⟩

/-! ## Claims -/

/-- C6, counterexample: the claim asserts that every endpoint resolving a
`dataset_id` falls back from `processed` to `original`; but with
`original_data/d.csv` present and `processed_data/d.csv` absent, the
evaluation endpoint fails instead of falling back. -/
theorem evalResolve_no_fallback_cex :
    fsOnlyOriginal "original_data/d.csv" = true ∧
    fsOnlyOriginal "processed_data/d.csv" = false ∧
    evalResolvePath fsOnlyOriginal "d" = .error "No processed file for dataset_id='d'." ∧
    feResolvePath fsOnlyOriginal "d" "processed_data" = .ok "original_data/d.csv" := by
  refine ⟨rfl, rfl, rfl, rfl⟩

/-- C6, amended: only the feature-engineering endpoint falls back between the
`processed` and `original` stage folders (and errors when the file is absent
from both); the evaluation endpoint consults only the `processed` folder and
the model-training endpoint consults only the single folder matching its
`dataset_source` (`feature_engineered` included), each failing immediately
when the file is absent there. -/
theorem dataset_resolution_fallback (fs : String → Bool) (id : String) :
    (fs ("processed_data/" ++ id ++ ".csv") = true →
      feResolvePath fs id "processed_data" = .ok ("processed_data/" ++ id ++ ".csv")) ∧
    (fs ("processed_data/" ++ id ++ ".csv") = false →
      fs ("original_data/" ++ id ++ ".csv") = true →
      feResolvePath fs id "processed_data" = .ok ("original_data/" ++ id ++ ".csv")) ∧
    (fs ("original_data/" ++ id ++ ".csv") = false →
      fs ("processed_data/" ++ id ++ ".csv") = true →
      feResolvePath fs id "original_data" = .ok ("processed_data/" ++ id ++ ".csv")) ∧
    (fs ("processed_data/" ++ id ++ ".csv") = false →
      fs ("original_data/" ++ id ++ ".csv") = false →
      feResolvePath fs id "processed_data" =
        .error ("No file found for dataset_id=" ++ id ++ " in " ++ "processed_data" ++ " or "
          ++ "original_data" ++ ".")) ∧
    (fs ("processed_data/" ++ id ++ ".csv") = false →
      evalResolvePath fs id = .error ("No processed file for dataset_id='" ++ id ++ "'.")) ∧
    (fs ("original_data/" ++ id ++ ".csv") = false →
      trainResolvePath fs "original" (some id) none =
        .error ("No original file found for dataset_id='" ++ id ++ "'.")) ∧
    (fs ("processed_data/" ++ id ++ ".csv") = false →
      trainResolvePath fs "preprocessed" (some id) none =
        .error ("No processed file found for dataset_id='" ++ id ++ "'.")) ∧
    (fs ("feature_engineered_data/" ++ id ++ ".csv") = false →
      trainResolvePath fs "feature_engineered" none (some id) =
        .error ("No feature-engineered file for id='" ++ id ++ "'.")) := by
  refine ⟨?_, ?_, ?_, ?_, ?_, ?_, ?_, ?_⟩ <;>
    intro h₁ <;>
    first
      | (intro h₂; simp [feResolvePath, h₁, h₂])
      | simp [feResolvePath, evalResolvePath, trainResolvePath, h₁]

/-- C6, witness for the amended theorem: concrete filesystems exercising the
feature-engineering fallback and the absence of fallback elsewhere. -/
theorem dataset_resolution_fallback_witness :
    feResolvePath fsOnlyOriginal "d" "processed_data" = .ok ("original_data/d.csv") ∧
    evalResolvePath fsOnlyOriginal "d" = .error "No processed file for dataset_id='d'." ∧
    trainResolvePath fsOnlyOriginal "preprocessed" (some "d") none =
      .error "No processed file found for dataset_id='d'." ∧
    trainResolvePath (fun _ => false) "feature_engineered" none (some "d") =
      .error "No feature-engineered file for id='d'." := by
  refine ⟨?_, ?_, ?_, ?_⟩
  · exact (dataset_resolution_fallback fsOnlyOriginal "d").2.1 rfl rfl
  · exact (dataset_resolution_fallback fsOnlyOriginal "d").2.2.2.2.1 rfl
  · exact (dataset_resolution_fallback fsOnlyOriginal "d").2.2.2.2.2.2.1 rfl
  · exact (dataset_resolution_fallback (fun _ => false) "d").2.2.2.2.2.2.2 rfl

/-- C7: if the EDA stage raises, `decide_next_steps` returns exactly the
record with `error = "EDA failed"` and `details` the exception message, no
`next_action` key, and the training stage is never invoked. -/
theorem decide_next_steps_eda_failure (env : OrchEnv) (data : Frame) (target_col e : String)
    (h : env.generate_eda data = .error e) :
    decide_next_steps env data target_col =
      ({ error := some "EDA failed", details := some e }, ["eda"]) ∧
    (decide_next_steps env data target_col).1.next_action = none ∧
    "train" ∉ (decide_next_steps env data target_col).2 := by
  simp [decide_next_steps, h]

/-- C7, witness. -/
theorem decide_next_steps_eda_failure_witness :
    decide_next_steps edaFailEnv [] "target" =
      ({ error := some "EDA failed", details := some "boom" }, ["eda"]) ∧
    (decide_next_steps edaFailEnv [] "target").1.next_action = none ∧
    "train" ∉ (decide_next_steps edaFailEnv [] "target").2 :=
  decide_next_steps_eda_failure edaFailEnv [] "target" "boom" rfl

/-- C8: with the hardcoded data-quality placeholder (0.85) and the fixed
threshold (0.8), the low-data-quality branch is unreachable:
`decide_next_steps` never returns the feature-engineering action. -/
theorem decide_next_steps_never_feature_engineering (env : OrchEnv) (data : Frame)
    (target_col : String) :
    (decide_next_steps env data target_col).1.next_action ≠
      some "Perform advanced feature engineering." := by
  have hq : ¬ (data_quality < eda_quality_threshold) := by
    norm_num [data_quality, eda_quality_threshold]
  unfold decide_next_steps
  cases h : env.generate_eda data with
  | error e => simp
  | ok report =>
    simp only [if_neg hq]
    cases ht : env.train data target_col with
    | error e => simp
    | ok results =>
      by_cases hb : best_r2 results < model_performance_threshold
      · simp [hb]
      · simp [hb]

@[simp] theorem mkEvalResult_column_info (env : SkEnv) (model : SavedModel) (preds : List ℚ)
    (ci : ColInfo) (y : Option (List ℚ)) : (mkEvalResult env model preds ci y).column_info = ci := by
  cases y <;> rfl

@[simp] theorem mkEvalResult_no_ytrue (env : SkEnv) (model : SavedModel) (preds : List ℚ)
    (ci : ColInfo) : mkEvalResult env model preds ci none = ⟨preds, ci, none, none⟩ := rfl

/-- C9: `evaluate_model` only appends the frames it allocates to the store;
every pre-existing frame — the caller's in particular — is unchanged by the
call, whatever its outcome. -/
theorem evaluate_model_preserves_store (env : SkEnv) (store : Store) (ref : Nat)
    (model : SavedModel) (target_col : Option String) :
    (evaluate_model env store ref model target_col).1.take store.length = store := by
  simp [evaluate_model, List.take_left]

/-- Core column-alignment behaviour of `evalModelCore` over an arbitrary
working frame. -/
theorem evalModelCore_column_alignment (env : SkEnv) (model : SavedModel) (df₀ : Frame)
    (target_col : Option String) (tcols : List String)
    (hcols : model.training_columns = some tcols) :
    (tcols.filter (fun c => !((targetStep df₀ target_col).1.cols.contains c)) = [] →
      ∃ r, (evalModelCore env model df₀ target_col).2 = .ok r ∧
        r.column_info.extra_columns_dropped =
          (if (targetStep df₀ target_col).1.cols.filter (fun c => !(tcols.contains c)) = []
            then none
            else some ((targetStep df₀ target_col).1.cols.filter (fun c => !(tcols.contains c)))) ∧
        r.column_info.used_columns = some tcols) ∧
    (tcols.filter (fun c => !((targetStep df₀ target_col).1.cols.contains c)) ≠ [] →
      (evalModelCore env model df₀ target_col).2 =
        .error (.columnMismatch
          (tcols.filter (fun c => !((targetStep df₀ target_col).1.cols.contains c))))) := by
  constructor
  · intro hm
    by_cases he : (targetStep df₀ target_col).1.cols.filter (fun c => !(tcols.contains c)) = []
    · simp only [evalModelCore, hcols, if_pos hm, if_pos he]
      exact ⟨_, rfl, by simp [he], by simp⟩
    · simp only [evalModelCore, hcols, if_pos hm, if_neg he]
      exact ⟨_, rfl, by simp [he], by simp⟩
  · intro hm
    simp only [evalModelCore, hcols, if_neg hm]

/-- C5: with a stored training-column list, extra dataset columns are dropped
and reported in `column_info` while evaluation succeeds, and any training
column absent from the dataset is a hard error naming exactly the missing
columns. -/
theorem evaluate_model_column_alignment (env : SkEnv) (store : Store) (ref : Nat)
    (model : SavedModel) (target_col : Option String) (tcols : List String)
    (df₁ : Frame) (extra missing : List String)
    (hcols : model.training_columns = some tcols)
    (hdf : df₁ = (targetStep (store.getD ref []) target_col).1)
    (hextra : extra = df₁.cols.filter (fun c => !(tcols.contains c)))
    (hmissing : missing = tcols.filter (fun c => !(df₁.cols.contains c))) :
    (missing = [] →
      ∃ r, (evaluate_model env store ref model target_col).2 = .ok r ∧
        r.column_info.extra_columns_dropped = (if extra = [] then none else some extra) ∧
        r.column_info.used_columns = some tcols) ∧
    (missing ≠ [] →
      (evaluate_model env store ref model target_col).2 = .error (.columnMismatch missing)) := by
  subst hdf hextra hmissing
  exact evalModelCore_column_alignment env model (store.getD ref []) target_col tcols hcols

/-- C5, witness: training columns `{a,b}` against dataset `{a,b,c}` succeeds
reporting `c` dropped; against dataset `{a}` fails naming `b`. -/
theorem evaluate_model_column_alignment_witness :
    (∃ r, (evaluate_model skStub [frameABC] 0 modelAB none).2 = .ok r ∧
      r.column_info.extra_columns_dropped = (if (["c"] : List String) = [] then none else some ["c"]) ∧
      r.column_info.used_columns = some ["a", "b"]) ∧
    (evaluate_model skStub [frameA] 0 modelAB none).2 =
      .error (.columnMismatch ["b"]) := by
  constructor
  · exact (evaluate_model_column_alignment skStub [frameABC] 0 modelAB none ["a", "b"]
      frameABC ["c"] [] rfl (by decide) (by decide) (by decide)).1 rfl
  · exact (evaluate_model_column_alignment skStub [frameA] 0 modelAB none ["a", "b"]
      frameA [] ["b"] rfl (by decide) (by decide) (by decide)).2 (by decide)

/-- Core missing-target behaviour of `evalModelCore` over an arbitrary
working frame. -/
theorem evalModelCore_missing_target (env : SkEnv) (model : SavedModel) (df₀ : Frame)
    (t : String)
    (ht : ¬ t = "")
    (habsent : df₀.cols.contains t = false)
    (hnomiss : ∀ tcols, model.training_columns = some tcols →
      tcols.filter (fun c => !(df₀.cols.contains c)) = []) :
    ∃ r, (evalModelCore env model df₀ (some t)).2 = .ok r ∧
      r.column_info.missing_target = some t ∧
      r.metrics = none ∧ r.actual = none := by
  have habsent' : ¬ (df₀.cols.contains t = true) := by simpa using habsent
  have hstep : targetStep df₀ (some t) = (df₀, none, some t) := by
    simp only [targetStep, if_neg ht, if_neg habsent']
  cases hmc : model.training_columns with
  | none =>
    simp only [evalModelCore, hmc, hstep]
    exact ⟨_, rfl, by simp, by simp, by simp⟩
  | some tcols =>
    by_cases he : df₀.cols.filter (fun c => !(tcols.contains c)) = []
    · simp only [evalModelCore, hmc, hstep, if_pos (hnomiss tcols hmc), if_pos he]
      exact ⟨_, rfl, by simp, by simp, by simp⟩
    · simp only [evalModelCore, hmc, hstep, if_pos (hnomiss tcols hmc), if_neg he]
      exact ⟨_, rfl, by simp, by simp, by simp⟩

/-- C10: a supplied target column that is absent from the evaluation dataset
does not make `evaluate_model` raise (provided the training columns
themselves are all present): it is recorded as `missing_target` in
`column_info`, metric computation is skipped, and predictions are still
returned. -/
theorem evaluate_model_missing_target_tolerated (env : SkEnv) (store : Store) (ref : Nat)
    (model : SavedModel) (t : String)
    (ht : ¬ t = "")
    (habsent : (store.getD ref []).cols.contains t = false)
    (hnomiss : ∀ tcols, model.training_columns = some tcols →
      tcols.filter (fun c => !((store.getD ref []).cols.contains c)) = []) :
    ∃ r, (evaluate_model env store ref model (some t)).2 = .ok r ∧
      r.column_info.missing_target = some t ∧
      r.metrics = none ∧ r.actual = none :=
  evalModelCore_missing_target env model (store.getD ref []) t ht habsent hnomiss

/-- C10, witness: target `t` absent from a dataset with columns `{a,b}`
evaluated under a model trained on `{a,b}`. -/
theorem evaluate_model_missing_target_tolerated_witness :
    ∃ r, (evaluate_model skStub [[("a", [1]), ("b", [2])]] 0 modelAB (some "t")).2 = .ok r ∧
      r.column_info.missing_target = some "t" ∧
      r.metrics = none ∧ r.actual = none :=
  evaluate_model_missing_target_tolerated skStub [[("a", [1]), ("b", [2])]] 0 modelAB "t"
    (by decide) (by decide) (by intro tcols h; cases h; decide)

theorem foldl_max_init_le (xs : List ℚ) (a : ℚ) : a ≤ xs.foldl max a := by
  induction xs generalizing a with
  | nil => exact le_refl a
  | cons x xs ih => exact le_trans (le_max_left a x) (ih (max a x))

theorem foldl_max_mem (xs : List ℚ) (a : ℚ) : xs.foldl max a = a ∨ xs.foldl max a ∈ xs := by
  induction xs generalizing a with
  | nil => exact Or.inl rfl
  | cons x xs ih =>
    rcases ih (max a x) with h | h
    · rcases max_choice a x with hm | hm
      · exact Or.inl (by rw [List.foldl_cons, h, hm])
      · exact Or.inr (by rw [List.foldl_cons, h, hm]; exact List.mem_cons_self x xs)
    · exact Or.inr (List.mem_cons_of_mem x h)

theorem le_foldl_max (xs : List ℚ) (x : ℚ) : x ∈ xs → ∀ a, x ≤ xs.foldl max a := by
  induction xs with
  | nil => intro hx; cases hx
  | cons y ys ih =>
    intro hx a
    rcases List.mem_cons.mp hx with rfl | h
    · exact le_trans (le_max_right a x) (foldl_max_init_le ys (max a x))
    · exact ih h (max a y)

/-- C3: when EDA and training both succeed, `best_r2` is the maximum of the
per-row R2 values (each row read with default 0, overall default 0 on an
empty results list); below the 0.75 threshold the decision is the tuning
action with an `ai_insights` key present, at or above it the decision is the
forecasting action and the insight generator is never invoked. -/
theorem decide_next_steps_model_performance (env : OrchEnv) (data : Frame)
    (target_col report : String) (results : List TrainRow)
    (heda : env.generate_eda data = .ok report)
    (htrain : env.train data target_col = .ok results) :
    (results = [] → best_r2 results = 0) ∧
    (∀ row ∈ results, rowGetR2 row ≤ best_r2 results) ∧
    (results ≠ [] → ∃ row ∈ results, best_r2 results = rowGetR2 row) ∧
    (best_r2 results < model_performance_threshold →
      (decide_next_steps env data target_col).1.next_action =
        some "Tune hyperparameters or try alternative models." ∧
      ((decide_next_steps env data target_col).1.ai_insights).isSome = true) ∧
    (model_performance_threshold ≤ best_r2 results →
      (decide_next_steps env data target_col).1.next_action =
        some "Proceed to forecasting or deployment." ∧
      (decide_next_steps env data target_col).1.ai_insights = none ∧
      "insights" ∉ (decide_next_steps env data target_col).2) := by
  have hq : ¬ (data_quality < eda_quality_threshold) := by
    norm_num [data_quality, eda_quality_threshold]
  refine ⟨?_, ?_, ?_, ?_, ?_⟩
  · rintro rfl; rfl
  · intro row hrow
    cases results with
    | nil => cases hrow
    | cons r rs =>
      rcases List.mem_cons.mp hrow with rfl | h
      · exact foldl_max_init_le (rs.map rowGetR2) (rowGetR2 row)
      · exact le_foldl_max (rs.map rowGetR2) (rowGetR2 row)
          (List.mem_map_of_mem rowGetR2 h) (rowGetR2 r)
  · intro hne
    cases results with
    | nil => exact absurd rfl hne
    | cons r rs =>
      rcases foldl_max_mem (rs.map rowGetR2) (rowGetR2 r) with h | h
      · exact ⟨r, List.mem_cons_self r rs, h⟩
      · rcases List.mem_map.mp h with ⟨row, hrow, hval⟩
        exact ⟨row, List.mem_cons_of_mem r hrow, hval.symm⟩
  · intro hb
    constructor <;> simp [decide_next_steps, heda, if_neg hq, htrain, hb]
  · intro hb
    have hb' : ¬ (best_r2 results < model_performance_threshold) := not_lt.mpr hb
    refine ⟨?_, ?_, ?_⟩ <;> simp [decide_next_steps, heda, if_neg hq, htrain, hb']

/-- C3, witness: with R2 = 0.7 the tuning branch fires with insights present;
with R2 = 0.9 the forecasting branch fires and the insight generator is not
invoked. -/
theorem decide_next_steps_model_performance_witness :
    ((decide_next_steps (trainEnv 0.7) [] "t").1.next_action =
      some "Tune hyperparameters or try alternative models." ∧
      ((decide_next_steps (trainEnv 0.7) [] "t").1.ai_insights).isSome = true) ∧
    ((decide_next_steps (trainEnv 0.9) [] "t").1.next_action =
      some "Proceed to forecasting or deployment." ∧
      (decide_next_steps (trainEnv 0.9) [] "t").1.ai_insights = none ∧
      "insights" ∉ (decide_next_steps (trainEnv 0.9) [] "t").2) := by
  constructor
  · exact (decide_next_steps_model_performance (trainEnv 0.7) [] "t" "report"
      [[("R2", 0.7)]] rfl rfl).2.2.2.1 (by norm_num [best_r2, rowGetR2, model_performance_threshold])
  · exact (decide_next_steps_model_performance (trainEnv 0.9) [] "t" "report"
      [[("R2", 0.9)]] rfl rfl).2.2.2.2 (by norm_num [best_r2, rowGetR2, model_performance_threshold])

theorem lookupCache_removeCache_ne (c : Cache) (k k' : String) (h : ¬ k' = k) :
    lookupCache (removeCache c k) k' = lookupCache c k' := by
  induction c with
  | nil => rfl
  | cons p ps ih =>
    by_cases hp : p.1 = k
    · by_cases hp' : p.1 = k'
      · exact absurd (hp'.symm.trans hp) h
      · have hkk' : ¬ k = k' := fun e => h e.symm
        simp [removeCache, lookupCache, hp, hp', hkk', ih]
    · simp [removeCache, lookupCache, hp, ih]

theorem lookupCache_setCache_self (c : Cache) (k v : String) :
    lookupCache (setCache c k v) k = some v := by
  simp [setCache, lookupCache]

theorem lookupCache_setCache_ne (c : Cache) (k v k' : String) (h : ¬ k' = k) :
    lookupCache (setCache c k v) k' = lookupCache c k' := by
  have hk : ¬ k = k' := fun e => h e.symm
  simp [setCache, lookupCache, hk, lookupCache_removeCache_ne c k k' h]

theorem finishGen_snd (cache : Cache) (calls : List (String × String)) (file : String)
    (resp : ChatResponse) (raw : String) (hex : extract_insights resp = .ok raw) :
    (finishGen cache calls file resp).2 = .ok (pyStrip raw) := by
  by_cases hraw : pyStrip raw = "" <;> simp [finishGen, hex, hraw]

theorem finishGen_cache (cache : Cache) (calls : List (String × String)) (file : String)
    (resp : ChatResponse) (raw : String) (hex : extract_insights resp = .ok raw)
    (hne : ¬ pyStrip raw = "") :
    (finishGen cache calls file resp).1.cache = setCache cache file (pyStrip raw) := by
  simp [finishGen, hex, hne]

/-- C1, counterexample: when the `gpt-4` call fails and the `mistral`
fallback also fails, the exception that propagates is the fallback's
(`raise fallback_e`), not the original one as the claim states. -/
theorem gpt4_fallback_original_exception_cex :
    (generate_ai_insights envGptFails [] "e" "m" "gpt-4" 1500 true false 512 false).2 =
      .error (.chatError "mistral failure") ∧
    GenError.chatError "mistral failure" ≠ GenError.chatError "gpt-4 failure" :=
  ⟨rfl, by decide⟩

/-- C1, amended: requesting `gpt-4` when the backend raises for any reason
results in exactly one retry against `mistral` (the chat-call log is exactly
the `gpt-4` call followed by the `mistral` call); if the fallback also fails,
the fallback's exception — not the original — propagates. -/
theorem gpt4_fallback_retries_once (env : GenEnv) (cache₀ : Cache)
    (eda_summary model_summary : String) (chunk_threshold : Nat)
    (force_regenerate enable_cot clear_cache : Bool) (max_tokens : Nat) (e₁ e₂ : String)
    (havail : env.available "gpt-4" = true)
    (hmiss : lookupCache cache₀
      (get_cache_filename env (buildPrompt eda_summary model_summary chunk_threshold enable_cot)
        "gpt-4") = none)
    (h₁ : env.chat "gpt-4" (buildPrompt eda_summary model_summary chunk_threshold enable_cot) =
      .error e₁)
    (h₂ : env.chat "mistral" (buildPrompt eda_summary model_summary chunk_threshold enable_cot) =
      .error e₂) :
    generate_ai_insights env cache₀ eda_summary model_summary "gpt-4" chunk_threshold
        force_regenerate enable_cot max_tokens clear_cache =
      (⟨cache₀,
        [("gpt-4", buildPrompt eda_summary model_summary chunk_threshold enable_cot),
         ("mistral", buildPrompt eda_summary model_summary chunk_threshold enable_cot)]⟩,
       .error (.chatError e₂)) := by
  have hm1 : "gpt-4" ∈ AVAILABLE_MODELS := by decide
  have hm2 : pyLower "gpt-4" = "gpt-4" := by decide
  by_cases hmem : strContains e₁ "requires more system memory" = true
  · simp [generate_ai_insights, genWithFallback, hm1, hm2, havail, hmiss, h₁, h₂, hmem]
  · simp [generate_ai_insights, genWithFallback, hm1, hm2, havail, hmiss, h₁, h₂, hmem]

/-- C1, witness for the amended theorem. -/
theorem gpt4_fallback_retries_once_witness :
    generate_ai_insights envGptFails [] "e" "m" "gpt-4" 1500 true false 512 false =
      (⟨[], [("gpt-4", buildPrompt "e" "m" 1500 false), ("mistral", buildPrompt "e" "m" 1500 false)]⟩,
       .error (.chatError "mistral failure")) :=
  gpt4_fallback_retries_once envGptFails [] "e" "m" 1500 true false false 512
    "gpt-4 failure" "mistral failure" rfl rfl rfl rfl

/-- C2: when the call falls back to `mistral` (memory-insufficiency retry or
gpt-4 retry) and the fallback produces non-empty text, the cache entry is
written under the cache key computed from the originally requested
`model_choice`, and no other cache key is touched. -/
theorem fallback_caches_under_original_key (env : GenEnv) (cache₀ : Cache)
    (eda_summary model_summary model_choice : String) (chunk_threshold : Nat)
    (force_regenerate enable_cot clear_cache : Bool) (max_tokens : Nat)
    (e raw : String) (resp : ChatResponse)
    (hvalid : AVAILABLE_MODELS.contains model_choice = true)
    (havail : env.available model_choice = true)
    (hmiss : lookupCache cache₀
      (get_cache_filename env (buildPrompt eda_summary model_summary chunk_threshold enable_cot)
        model_choice) = none)
    (h₁ : env.chat model_choice (buildPrompt eda_summary model_summary chunk_threshold enable_cot) =
      .error e)
    (hfb : strContains e "requires more system memory" = true ∨ pyLower model_choice = "gpt-4")
    (h₂ : env.chat "mistral" (buildPrompt eda_summary model_summary chunk_threshold enable_cot) =
      .ok resp)
    (hex : extract_insights resp = .ok raw)
    (hne : ¬ pyStrip raw = "") :
    lookupCache
      (generate_ai_insights env cache₀ eda_summary model_summary model_choice chunk_threshold
        force_regenerate enable_cot max_tokens clear_cache).1.cache
      (get_cache_filename env (buildPrompt eda_summary model_summary chunk_threshold enable_cot)
        model_choice) = some (pyStrip raw) ∧
    (∀ k, ¬ k = get_cache_filename env
        (buildPrompt eda_summary model_summary chunk_threshold enable_cot) model_choice →
      lookupCache
        (generate_ai_insights env cache₀ eda_summary model_summary model_choice chunk_threshold
          force_regenerate enable_cot max_tokens clear_cache).1.cache k = lookupCache cache₀ k) := by
  have hred : generate_ai_insights env cache₀ eda_summary model_summary model_choice chunk_threshold
      force_regenerate enable_cot max_tokens clear_cache =
      finishGen cache₀
        [(model_choice, buildPrompt eda_summary model_summary chunk_threshold enable_cot),
         ("mistral", buildPrompt eda_summary model_summary chunk_threshold enable_cot)]
        (get_cache_filename env (buildPrompt eda_summary model_summary chunk_threshold enable_cot)
          model_choice)
        resp := by
    have hvalid' : model_choice ∈ AVAILABLE_MODELS := by simpa using hvalid
    by_cases hmem : strContains e "requires more system memory" = true
    · simp [generate_ai_insights, genWithFallback, hvalid', havail, hmiss, h₁, h₂, hmem]
    · rcases hfb with hfb | hfb
      · exact absurd hfb hmem
      · simp [generate_ai_insights, genWithFallback, hvalid', havail, hmiss, h₁, h₂, hmem, hfb]
  rw [hred, finishGen_cache _ _ _ _ raw hex hne]
  constructor
  · exact lookupCache_setCache_self _ _ _
  · intro k hk
    exact lookupCache_setCache_ne _ _ _ _ hk

/-- C2, witness: after a gpt-4 → mistral fallback the insights are cached
under the `gpt-4` key. -/
theorem fallback_caches_under_original_key_witness :
    lookupCache
      (generate_ai_insights envFallbackOk [] "e" "m" "gpt-4" 1500 false false 512 false).1.cache
      (get_cache_filename envFallbackOk (buildPrompt "e" "m" 1500 false) "gpt-4") =
      some (pyStrip " insight text ") ∧
    (¬ "other" = get_cache_filename envFallbackOk (buildPrompt "e" "m" 1500 false) "gpt-4") ∧
    lookupCache
      (generate_ai_insights envFallbackOk [] "e" "m" "gpt-4" 1500 false false 512 false).1.cache
      "other" = lookupCache [] "other" := by
  have h := fallback_caches_under_original_key envFallbackOk [] "e" "m" "gpt-4" 1500 false false
    false 512 "gpt-4 failure" " insight text " (.dictMessageContent " insight text ")
    (by decide) rfl rfl rfl (Or.inr (by decide)) rfl rfl (by decide)
  have hother : ¬ "other" = get_cache_filename envFallbackOk (buildPrompt "e" "m" 1500 false)
      "gpt-4" := by decide
  exact ⟨h.1, hother, h.2 "other" hother⟩

/-- C4, counterexample: a dict-shaped backend response is returned without
control-token stripping — the returned text still contains `[INST]`, whereas
the claim demands the cleaned text `hi`. -/
theorem response_cleaning_cex :
    (generate_ai_insights envDictTokens [] "e" "m" "mistral" 1500 true false 512 false).2 =
      .ok "[INST] hi [/INST]" ∧
    clean_response "[INST] hi [/INST]" = "hi" ∧
    ("[INST] hi [/INST]" : String) ≠ "hi" :=
  ⟨rfl, rfl, by decide⟩

/-- C4, amended: only raw-string backend responses go through
`clean_response`; the direct-text, nested message-content and
message-attribute shapes are returned with only leading/trailing whitespace
trimmed, and whatever text is returned is what gets cached when non-empty. -/
theorem response_cleaning_by_shape (env : GenEnv) (cache₀ : Cache)
    (eda_summary model_summary model_choice : String) (chunk_threshold : Nat)
    (force_regenerate enable_cot clear_cache : Bool) (max_tokens : Nat)
    (resp : ChatResponse)
    (hvalid : AVAILABLE_MODELS.contains model_choice = true)
    (havail : env.available model_choice = true)
    (hmiss : lookupCache cache₀
      (get_cache_filename env (buildPrompt eda_summary model_summary chunk_threshold enable_cot)
        model_choice) = none)
    (hchat : env.chat model_choice (buildPrompt eda_summary model_summary chunk_threshold enable_cot)
      = .ok resp) :
    (∀ s, resp = .dictResponse s →
      (generate_ai_insights env cache₀ eda_summary model_summary model_choice chunk_threshold
        force_regenerate enable_cot max_tokens clear_cache).2 = .ok (pyStrip s)) ∧
    (∀ s, resp = .dictMessageContent s →
      (generate_ai_insights env cache₀ eda_summary model_summary model_choice chunk_threshold
        force_regenerate enable_cot max_tokens clear_cache).2 = .ok (pyStrip s)) ∧
    (∀ s, resp = .objMessage s →
      (generate_ai_insights env cache₀ eda_summary model_summary model_choice chunk_threshold
        force_regenerate enable_cot max_tokens clear_cache).2 = .ok (pyStrip s)) ∧
    (∀ s, resp = .rawString s →
      (generate_ai_insights env cache₀ eda_summary model_summary model_choice chunk_threshold
        force_regenerate enable_cot max_tokens clear_cache).2 = .ok (pyStrip (clean_response s))) ∧
    (∀ ins, (generate_ai_insights env cache₀ eda_summary model_summary model_choice chunk_threshold
        force_regenerate enable_cot max_tokens clear_cache).2 = .ok ins → ¬ ins = "" →
      lookupCache
        (generate_ai_insights env cache₀ eda_summary model_summary model_choice chunk_threshold
          force_regenerate enable_cot max_tokens clear_cache).1.cache
        (get_cache_filename env (buildPrompt eda_summary model_summary chunk_threshold enable_cot)
          model_choice) = some ins) := by
  have hred : generate_ai_insights env cache₀ eda_summary model_summary model_choice chunk_threshold
      force_regenerate enable_cot max_tokens clear_cache =
      finishGen cache₀
        [(model_choice, buildPrompt eda_summary model_summary chunk_threshold enable_cot)]
        (get_cache_filename env (buildPrompt eda_summary model_summary chunk_threshold enable_cot)
          model_choice)
        resp := by
    have hvalid' : model_choice ∈ AVAILABLE_MODELS := by simpa using hvalid
    simp [generate_ai_insights, genWithFallback, hvalid', havail, hmiss, hchat]
  refine ⟨?_, ?_, ?_, ?_, ?_⟩
  · rintro s rfl; rw [hred]; exact finishGen_snd _ _ _ _ s rfl
  · rintro s rfl; rw [hred]; exact finishGen_snd _ _ _ _ s rfl
  · rintro s rfl; rw [hred]; exact finishGen_snd _ _ _ _ s rfl
  · rintro s rfl; rw [hred]; exact finishGen_snd _ _ _ _ (clean_response s) rfl
  · intro ins hok hne
    rw [hred] at hok ⊢
    cases hex : extract_insights resp with
    | error err => simp [finishGen, hex] at hok
    | ok raw =>
      rw [finishGen_snd _ _ _ _ raw hex] at hok
      have hraw : pyStrip raw = ins := by injection hok
      rw [finishGen_cache _ _ _ _ raw hex (by rw [hraw]; exact hne), hraw]
      exact lookupCache_setCache_self _ _ _

/-- C4, witness for the amended theorem: a dict-shaped response is returned
only trimmed, and cached as returned. -/
theorem response_cleaning_by_shape_witness :
    (generate_ai_insights envDictTokens [] "e" "m" "mistral" 1500 true false 512 false).2 =
      .ok (pyStrip "[INST] hi [/INST]") ∧
    lookupCache
      (generate_ai_insights envDictTokens [] "e" "m" "mistral" 1500 true false 512 false).1.cache
      (get_cache_filename envDictTokens (buildPrompt "e" "m" 1500 false) "mistral") =
      some "[INST] hi [/INST]" := by
  have h := response_cleaning_by_shape envDictTokens [] "e" "m" "mistral" 1500 true false
    false 512 (.dictResponse "[INST] hi [/INST]") (by decide) rfl rfl rfl
  refine ⟨h.1 "[INST] hi [/INST]" rfl, ?_⟩
  have := h.2.2.2.2 "[INST] hi [/INST]" (h.1 "[INST] hi [/INST]" rfl) (by decide)
  simpa using this

end AutoML
